import Mathlib

/-!
Shallow embedding of the darwin telemetry C sources of dmetrics-go
(`src/internal/power/darwin/power.c` and `src/internal/cpu/darwin/cpu.c`).

Machine integers are modelled as `Nat` with explicit `% 2^w` where C
performs modular arithmetic; C floats are modelled as exact rationals
(every value produced by the decoders is a dyadic rational with numerator
below 2^24, hence exactly representable in IEEE single precision, so no
rounding occurs in the C code on the modelled paths); fallible calls are
modelled with `Option`/`Bool` results.  Pointer-valued arguments that may
be NULL are modelled as `Option`; out-parameters become components of the
returned value.  The IOKit adapter (`IOConnectCallStructMethod`,
`host_processor_info`, `IOServiceGetMatchingService`, `IOServiceOpen`) is
modelled as explicit oracle arguments.
-/

/-! ## SMC data types and command structure (power.h / power.c) -/

def SMC_TYPE_FP1F : Nat := 0x66703166
def SMC_TYPE_FP4C : Nat := 0x66703463
def SMC_TYPE_FP5B : Nat := 0x6670356B
def SMC_TYPE_FP6A : Nat := 0x66703661
def SMC_TYPE_FP79 : Nat := 0x66703739
def SMC_TYPE_FP88 : Nat := 0x66703838
def SMC_TYPE_FPA6 : Nat := 0x66706136
def SMC_TYPE_FPC4 : Nat := 0x66706334
def SMC_TYPE_FPE2 : Nat := 0x66706532

def SMC_CMD_READ_KEY : Nat := 0x5
def SMC_CMD_READ_KEYINFO : Nat := 0x9

def SMC_SUCCESS : Int := 0
def SMC_ERROR_NO_SERVICE : Int := 2
def SMC_ERROR_OPEN_FAILED : Int := 3
def SMC_ERROR_INVALID_ARGS : Int := 4
def SMC_ERROR_INIT_FAILED : Int := 5

/-- Syslog priorities used by power.c (`LOG_ERR` = 3, `LOG_WARNING` = 4,
`LOG_DEBUG` = 7 from `<syslog.h>`). -/
def LOG_ERR : Nat := 3
def LOG_WARNING : Nat := 4
def LOG_DEBUG : Nat := 7

/-- The `smc_cmd_t` structure of power.h.  `data` models the
`uint8_t data[32]` buffer: each entry is a byte value (the C type keeps
entries below 256; theorems that need this bound carry it as a
hypothesis). -/
structure smc_cmd where
  key : Nat
  versioning : Nat
  cmd : Nat
  result : Nat
  unknown : Nat
  data : Fin 32 → Nat
  keyInfo : Nat

/-- An all-zero data buffer (`memset(cmd->data, 0, sizeof(cmd->data))`). -/
def zero_data : Fin 32 → Nat := fun _ => 0

/-- The fully zeroed command buffer (`memset(&cmd, 0, sizeof(cmd))`). -/
def zero_cmd : smc_cmd :=
  { key := 0, versioning := 0, cmd := 0, result := 0, unknown := 0,
    data := zero_data, keyInfo := 0 }

/-- Result of `decode_smc_float`: the returned float (exact rational) and
the syslog priority of the diagnostic emitted by the call, if any. -/
structure decode_result where
  value : ℚ
  logged : Option Nat
deriving DecidableEq

/-- Embedding of `decode_smc_float` (power.c lines 427-487).  The `Option`
argument models the `const smc_cmd_t *` pointer (`none` = NULL).  Each
branch mirrors one `case` of the C `switch` on
`data_type = cmd->keyInfo & 0xFFFFFFFF`. -/
def decode_smc_float (cmd : Option smc_cmd) : decode_result :=
  match cmd with
  | none => { value := 0, logged := some LOG_ERR }
  | some c =>
    let data_type : Nat := c.keyInfo &&& 0xFFFFFFFF
    let d0 : Nat := c.data 0
    let d1 : Nat := c.data 1
    if data_type = SMC_TYPE_FP1F then
      { value := (d0 : ℚ) + ((d1 &&& 0x7F : Nat) : ℚ) / ((1 <<< 7 : Nat) : ℚ),
        logged := none }
    else if data_type = SMC_TYPE_FP4C then
      { value := ((d0 <<< 8 ||| d1 : Nat) : ℚ) / 4096, logged := none }
    else if data_type = SMC_TYPE_FP5B then
      { value := ((d0 <<< 8 ||| d1 : Nat) : ℚ) / 2048, logged := none }
    else if data_type = SMC_TYPE_FP6A then
      { value := ((d0 <<< 8 ||| d1 : Nat) : ℚ) / 1024, logged := none }
    else if data_type = SMC_TYPE_FP79 then
      { value := ((d0 <<< 8 ||| d1 : Nat) : ℚ) / 512, logged := none }
    else if data_type = SMC_TYPE_FP88 then
      { value := (d0 : ℚ) + (d1 : ℚ) / ((1 <<< 8 : Nat) : ℚ), logged := none }
    else if data_type = SMC_TYPE_FPA6 then
      let value : Nat := d0 <<< 8 ||| d1
      let integer : Nat := value >>> 6
      let fraction : Nat := value &&& 0x3F
      { value := (integer : ℚ) + (fraction : ℚ) / 64, logged := none }
    else if data_type = SMC_TYPE_FPC4 then
      let integer : Nat := d0
      let fraction : Nat := d1 &&& 0xF
      { value := (integer : ℚ) + (fraction : ℚ) / 16, logged := none }
    else if data_type = SMC_TYPE_FPE2 then
      let integer : Nat := d0
      let fraction : Nat := d1 &&& 0x3
      { value := (integer : ℚ) + (fraction : ℚ) / 4, logged := none }
    else
      { value := 0, logged := some LOG_WARNING }

/-- The nine recognized SMC float format tags. -/
def smc_recognized_tags : List Nat :=
  [SMC_TYPE_FP1F, SMC_TYPE_FP4C, SMC_TYPE_FP5B, SMC_TYPE_FP6A,
   SMC_TYPE_FP79, SMC_TYPE_FP88, SMC_TYPE_FPA6, SMC_TYPE_FPC4,
   SMC_TYPE_FPE2]

/-- Declared fraction width of each recognized tag (power.h:
fp1f = 15.1, fp4c = 12.4, fp5b = 11.5, fp6a = 10.6, fp79 = 9.7,
fp88 = 8.8, fpa6 = 10.6, fpc4 = 12.4, fpe2 = 14.2 fixed point; power.c
doc block lines 388-422 gives the same integer/fraction splits). -/
def smc_fraction_bits (tag : Nat) : Nat :=
  if tag = SMC_TYPE_FP1F then 15
  else if tag = SMC_TYPE_FP4C then 12
  else if tag = SMC_TYPE_FP5B then 11
  else if tag = SMC_TYPE_FP6A then 10
  else if tag = SMC_TYPE_FP79 then 9
  else if tag = SMC_TYPE_FP88 then 8
  else if tag = SMC_TYPE_FPA6 then 6
  else if tag = SMC_TYPE_FPC4 then 4
  else if tag = SMC_TYPE_FPE2 then 2
  else 0

/-- Helper for building a command whose payload starts with two given
bytes (mirrors `create_test_cmd` of power_test.c). -/
def mk_cmd (data_type b0 b1 : Nat) : smc_cmd :=
  { zero_cmd with
    keyInfo := data_type,
    data := fun i => if i.1 = 0 then b0 else if i.1 = 1 then b1 else 0 }

/-! ## SMC connection and key reading (power.c) -/

/-- The `smc_error_info_t` structure of power.h. -/
structure smc_error_info where
  code : Int
  message : String
  severity : Int
deriving DecidableEq

/-- The `smc_connection_t` structure of power.h.  The `os_unfair_lock`
field carries no data; lock usage is tracked in the call traces of the
operations below.  `connection = 0` is the CLOSED state (the C code
tests `!g_smc_conn.connection`). -/
structure smc_connection where
  connection : Nat
  error : smc_error_info
  limited_mode : Bool
deriving DecidableEq

/-- The `smc_init_options_t` structure of power.h. -/
structure smc_init_options where
  allow_limited_mode : Bool
  skip_power_keys : Bool
  timeout_ms : Int

/-- Key packing expression of `read_smc_key` (power.c lines 301-303):
`(key_str[0] << 24) | (key_str[1] << 16) | (key_str[2] << 8) | key_str[3]`.
The arguments are the first four bytes of the key string; for ASCII keys
(all bytes below 128) the C `char` arithmetic has no sign extension and
agrees with this `Nat` computation. -/
def encode_key (b0 b1 b2 b3 : Nat) : Nat :=
  (b0 <<< 24) ||| (b1 <<< 16) ||| (b2 <<< 8) ||| b3

/-- An adapter oracle for `IOConnectCallStructMethod`: call index (0 for
the key-info phase, 1 for the read phase) and input command buffer to the
response, or `none` when the kernel call fails. -/
def smc_exchange_oracle : Type := Nat → smc_cmd → Option smc_cmd

/-- Embedding of `read_smc_key` (power.c lines 294-337).  `key_str` models
the `const char *` argument as the byte sequence of the C string
including its NUL terminator (`none` = NULL pointer); byte `i` of the
string is `ks.getD i 0`.  The returned triple is (success flag, final
contents of the in/out command buffer, number of adapter exchanges
performed). -/
def read_smc_key (exchange : smc_exchange_oracle) (key_str : Option (List Nat))
    (cmd : smc_cmd) : Bool × smc_cmd × Nat :=
  match key_str with
  | none => (false, cmd, 0)
  | some ks =>
    let key : Nat := encode_key (ks.getD 0 0) (ks.getD 1 0) (ks.getD 2 0) (ks.getD 3 0)
    let cmd1 : smc_cmd :=
      { cmd with key := key, cmd := SMC_CMD_READ_KEYINFO, keyInfo := 0 }
    match exchange 0 cmd1 with
    | none => (false, cmd1, 1)
    | some cmd2 =>
      let cmd3 : smc_cmd :=
        { cmd2 with cmd := SMC_CMD_READ_KEY, keyInfo := 0, data := zero_data }
      match exchange 1 cmd3 with
      | none => (false, cmd3, 2)
      | some cmd4 => (true, cmd4, 2)

/-- What a call to `get_smc_float` did besides returning: whether the
connection lock's critical section was entered, and how many adapter
exchanges were invoked. -/
structure smc_call_trace where
  lock_acquired : Bool
  exchange_count : Nat
deriving DecidableEq

/-- Result of `get_smc_float`: the returned boolean, the float written
through the `value` out-pointer (if any), and the call trace. -/
structure get_smc_float_result where
  success : Bool
  value : Option ℚ
  trace : smc_call_trace
deriving DecidableEq

/-- Embedding of `get_smc_float` (power.c lines 489-505).  `g` is the
global connection `g_smc_conn`; `key` and `value_ptr` model the two
pointer arguments (`value_ptr = false` = NULL out-pointer). -/
def get_smc_float (g : smc_connection) (exchange : smc_exchange_oracle)
    (key : Option (List Nat)) (value_ptr : Bool) : get_smc_float_result :=
  if key = none ∨ value_ptr = false ∨ g.connection = 0 then
    { success := false, value := none,
      trace := { lock_acquired := false, exchange_count := 0 } }
  else
    let r := read_smc_key exchange key zero_cmd
    { success := r.1,
      value := if r.1 then some (decode_smc_float (some r.2.1)).value else none,
      trace := { lock_acquired := true, exchange_count := r.2.2 } }

/-! ## SMC initialisation (power.c lines 212-264 and 339-351) -/

/-- Environment oracle for `init_smc_with_options`: whether
`IOServiceGetMatchingService` finds the AppleSMC service, and the handle
produced by `IOServiceOpen` (`none` = the open returns a non-success
`kern_return_t`). -/
structure smc_env where
  service_found : Bool
  open_result : Option Nat

/-- Embedding of `init_power_source_keys` (power.c lines 68-80): it only
assigns constant CFStringRefs and always returns true. -/
def init_power_source_keys : Bool := true

/-- Embedding of `cleanup_smc_connection` (power.c lines 551-574), state
passing: closes the handle if open and resets the error record.  (The
CoreFoundation key release has no counterpart in the modelled state.) -/
def cleanup_smc_connection (conn : smc_connection) : smc_connection :=
  let conn1 := if conn.connection ≠ 0 then { conn with connection := 0 } else conn
  { conn1 with
    error := { code := SMC_SUCCESS, message := "Connection closed", severity := 0 } }

/-- Embedding of `init_smc_with_options` (power.c lines 212-264).  The
`Option` arguments model the two pointers (`none` = NULL); the result is
the returned error code together with the final contents of `*conn`. -/
def init_smc_with_options (env : smc_env) (conn : Option smc_connection)
    (options : Option smc_init_options) : Int × Option smc_connection :=
  match conn, options with
  | some c, some opts =>
    if ¬ env.service_found then
      (SMC_ERROR_NO_SERVICE,
       some { c with error := { code := SMC_ERROR_NO_SERVICE,
                                message := "SMC service not found",
                                severity := 2 } })
    else
      match env.open_result with
      | none =>
        (SMC_ERROR_OPEN_FAILED,
         some { c with error := { code := SMC_ERROR_OPEN_FAILED,
                                  message := "Failed to open SMC connection",
                                  severity := 2 } })
      | some handle =>
        let c1 := { c with connection := handle,
                           limited_mode := opts.allow_limited_mode }
        if ¬ opts.skip_power_keys ∧ ¬ c1.limited_mode ∧ ¬ init_power_source_keys then
          let c2 := cleanup_smc_connection c1
          (SMC_ERROR_INIT_FAILED,
           some { c2 with error := { code := SMC_ERROR_INIT_FAILED,
                                     message := "Failed to initialise power source keys",
                                     severity := 2 } })
        else
          (SMC_SUCCESS,
           some { c1 with error := { code := SMC_SUCCESS,
                                     message := "SMC initialised successfully",
                                     severity := 0 } })
  | _, _ => (SMC_ERROR_INVALID_ARGS, conn)

/-- Embedding of `init_smc` (power.c lines 339-351), state passing over
the global connection `g_smc_conn`: builds the default options, runs
`init_smc_with_options`, and on failure resets the connection to the
CLOSED state (`connection = 0`, `limited_mode = false`). -/
def init_smc (env : smc_env) (g : smc_connection) : Bool × smc_connection :=
  let options : smc_init_options :=
    { allow_limited_mode := false, skip_power_keys := false, timeout_ms := 1000 }
  let r := init_smc_with_options env (some g) (some options)
  let g1 := r.2.getD g
  let g2 := if r.1 ≠ SMC_SUCCESS
            then { g1 with connection := 0, limited_mode := false }
            else g1
  (r.1 = SMC_SUCCESS, g2)

/-! ## CPU tick sampler (cpu.c) -/

def CPU_SUCCESS : Int := 0
def CPU_ERROR_HOST_PROCESSOR_INFO : Int := -3

/-- One core's entry of a `processor_cpu_load_info` snapshot: the four
cumulative `cpu_ticks` counters (C type `natural_t`, 32-bit unsigned). -/
structure core_ticks where
  user : Nat
  system : Nat
  idle : Nat
  nice : Nat
deriving DecidableEq

/-- One entry of the `cpu_core_stats_t` / `cpu_stats_t` output arrays
(the four `double` percentage fields; every value produced on the
modelled paths is an exact rational). -/
structure cpu_core_stats where
  user : ℚ
  system : ℚ
  idle : ℚ
  nice : ℚ
deriving DecidableEq

/-- C subtraction of two `natural_t` (32-bit unsigned) values, as in
`cpu_load_info[i].cpu_ticks[s] - prev_cpu_load[i].cpu_ticks[s]`:
wraparound modulo 2^32. -/
def u32_sub (a b : Nat) : Nat :=
  (a % 2 ^ 32 + (2 ^ 32 - b % 2 ^ 32)) % 2 ^ 32

/-- The four per-state tick deltas of one core (cpu.c lines 320-327 /
202-210). -/
def core_deltas (cur prev : core_ticks) : core_ticks :=
  { user := u32_sub cur.user prev.user,
    system := u32_sub cur.system prev.system,
    idle := u32_sub cur.idle prev.idle,
    nice := u32_sub cur.nice prev.nice }

/-- Per-core body of the `get_cpu_core_stats` loop (cpu.c lines 319-343):
percentages when `total > 0`, and the all-idle fallback
`{user = 0, system = 0, idle = 100, nice = 0}` when `total == 0`. -/
def get_cpu_core_stats_core (cur prev : core_ticks) : cpu_core_stats :=
  let d := core_deltas cur prev
  let total : Nat := d.user + d.system + d.idle + d.nice
  if total > 0 then
    { user := (d.user : ℚ) / (total : ℚ) * 100,
      system := (d.system : ℚ) / (total : ℚ) * 100,
      idle := (d.idle : ℚ) / (total : ℚ) * 100,
      nice := (d.nice : ℚ) / (total : ℚ) * 100 }
  else
    { user := 0, system := 0, idle := 100, nice := 0 }

/-- Per-core body of the `get_cpu_stats` loop (cpu.c lines 202-219):
identical percentages when `total > 0`, but NO else branch — when
`total == 0` the caller's output entry `old` is left untouched. -/
def get_cpu_stats_core (cur prev : core_ticks) (old : cpu_core_stats) : cpu_core_stats :=
  let d := core_deltas cur prev
  let total : Nat := d.user + d.system + d.idle + d.nice
  if total > 0 then
    { user := (d.user : ℚ) / (total : ℚ) * 100,
      system := (d.system : ℚ) / (total : ℚ) * 100,
      idle := (d.idle : ℚ) / (total : ℚ) * 100,
      nice := (d.nice : ℚ) / (total : ℚ) * 100 }
  else
    old

/-- Outcome of one (possibly self-retrying) `get_cpu_core_stats` call:
either the `CPU_ERROR_HOST_PROCESSOR_INFO` failure, or success carrying
the total milliseconds slept inside the call, the per-core stats written
to the output array, and the snapshot stored as the new
`prev_info_array`. -/
inductive core_stats_outcome where
  | host_error : core_stats_outcome
  | ok (slept_ms : Nat) (stats : List cpu_core_stats) (new_prev : List core_ticks) :
      core_stats_outcome
deriving DecidableEq

/-- Embedding of `get_cpu_core_stats` (cpu.c lines 285-357) as a
fuel-indexed recursion.  `fetch idx` is the `host_processor_info` oracle
for the idx-th invocation in this call chain (`none` = kernel error);
`prev` is the static `prev_info_array` (`none` = NULL, the UNPRIMED
state).  On the unprimed path the code stores the snapshot, unlocks,
sleeps 500 ms (`usleep(500000)`) and calls itself again; `fuel` bounds
the recursion depth, and a `none` result means the fuel was exhausted
before the call returned. -/
def get_cpu_core_stats_run (fetch : Nat → Option (List core_ticks)) :
    Nat → Nat → Option (List core_ticks) → Option core_stats_outcome
  | 0, _, _ => none
  | fuel + 1, idx, prev =>
    match fetch idx with
    | none => some core_stats_outcome.host_error
    | some cur =>
      match prev with
      | none =>
        match get_cpu_core_stats_run fetch fuel (idx + 1) (some cur) with
        | none => none
        | some core_stats_outcome.host_error => some core_stats_outcome.host_error
        | some (core_stats_outcome.ok s st np) =>
          some (core_stats_outcome.ok (500 + s) st np)
      | some p =>
        some (core_stats_outcome.ok 0
          (List.zipWith get_cpu_core_stats_core cur p) cur)

/-! ## Concrete witness scaffolding -/

/-- The byte sequence of the C string literal for the CPU power key
(4 ASCII characters plus NUL terminator). -/
def pc0c_key : List Nat := [80, 67, 48, 67, 0]

/-- An adapter that answers every exchange with the request buffer,
its `keyInfo` field set to a tag outside the nine recognized formats. -/
def unknown_tag_exchange : smc_exchange_oracle :=
  fun _ c => some { c with keyInfo := 0x12345678 }

/-- The command buffer `read_smc_key` produces under
`unknown_tag_exchange` for the CPU power key. -/
def unknown_tag_final_cmd : smc_cmd :=
  (read_smc_key unknown_tag_exchange (some pc0c_key) zero_cmd).2.1

/-- An adapter that succeeds on every exchange and echoes the request. -/
def echo_exchange : smc_exchange_oracle := fun _ c => some c

/-- An open connection value (nonzero handle). -/
def open_conn : smc_connection :=
  { connection := 1,
    error := { code := SMC_SUCCESS, message := "", severity := 0 },
    limited_mode := false }

/-- A CLOSED connection value (handle 0). -/
def closed_conn : smc_connection :=
  { connection := 0,
    error := { code := SMC_SUCCESS, message := "", severity := 0 },
    limited_mode := false }

/-- A command whose trailing thirty data bytes are nonzero. -/
def noisy_cmd : smc_cmd :=
  { zero_cmd with
    keyInfo := SMC_TYPE_FP88,
    data := fun i => if i.1 = 0 then 1 else if i.1 = 1 then 128 else 9 }

/-- An environment in which the AppleSMC service is not found. -/
def no_service_env : smc_env := { service_found := false, open_result := none }

/-- A two-snapshot tick oracle for the priming scenario. -/
def two_snapshot_fetch : Nat → Option (List core_ticks) :=
  fun idx => if idx = 0 then some [{ user := 0, system := 0, idle := 0, nice := 0 }]
             else some [{ user := 10, system := 5, idle := 85, nice := 0 }]

/-! ## Helper lemmas on bit packing -/

/-- Big-endian combination of two bytes: `(d0 << 8) | d1` as addition. -/
lemma byte_or_eq_add (d0 d1 : Nat) (h1 : d1 < 256) :
    d0 <<< 8 ||| d1 = 256 * d0 + d1 := by
  rw [Nat.shiftLeft_eq, Nat.mul_comm]
  rw [← Nat.mul_add_lt_is_or (show d1 < 2 ^ 8 by omega) d0]

/-- The key packing of `read_smc_key` as positional arithmetic. -/
lemma encode_key_eq (b0 b1 b2 b3 : Nat) (h0 : b0 < 256) (h1 : b1 < 256)
    (h2 : b2 < 256) (h3 : b3 < 256) :
    encode_key b0 b1 b2 b3 = b0 * 2 ^ 24 + b1 * 2 ^ 16 + b2 * 2 ^ 8 + b3 := by
  unfold encode_key
  rw [Nat.or_assoc, Nat.or_assoc]
  rw [Nat.shiftLeft_eq, Nat.shiftLeft_eq, Nat.shiftLeft_eq]
  rw [Nat.mul_comm b2, ← Nat.mul_add_lt_is_or (show b3 < 2 ^ 8 by omega) b2]
  rw [Nat.mul_comm b1,
      ← Nat.mul_add_lt_is_or (show 2 ^ 8 * b2 + b3 < 2 ^ 16 by omega) b1]
  rw [Nat.mul_comm b0,
      ← Nat.mul_add_lt_is_or
        (show 2 ^ 16 * b1 + (2 ^ 8 * b2 + b3) < 2 ^ 24 by omega) b0]
  ring

/-- Masking with `0xFF` is reduction modulo 256. -/
lemma and_FF_eq_mod (x : Nat) : x &&& 0xFF = x % 2 ^ 8 := by
  have h : (0xFF : Nat) = 2 ^ 8 - 1 := by norm_num
  rw [h, Nat.and_pow_two_sub_one_eq_mod]

/-- Fail-fast behaviour of `get_smc_float` on a CLOSED connection,
shared by the claims about `NotConnected` reads. -/
lemma get_smc_float_closed (g : smc_connection) (exchange : smc_exchange_oracle)
    (key : Option (List Nat)) (vp : Bool) (h : g.connection = 0) :
    get_smc_float g exchange key vp =
      { success := false, value := none,
        trace := { lock_acquired := false, exchange_count := 0 } } := by
  unfold get_smc_float
  rw [if_pos (Or.inr (Or.inr h))]

/-! ## Claim C1 -/

/-- C1 counterexample: at tag FPE2 with payload bytes `[0x01, 0x00]` the
code returns `1.0`, not the 16-bit big-endian value `0x0100 = 256`
divided by `2^2` (which would be `64.0`), so the claim that every
recognized tag decodes as the combined 16-bit value over
`2^fraction_bits` is false on the code. -/
theorem C1_unified_formula_counterexample :
    (decode_smc_float (some (mk_cmd SMC_TYPE_FPE2 1 0))).value ≠
      ((1 <<< 8 ||| 0 : Nat) : ℚ) / 2 ^ smc_fraction_bits SMC_TYPE_FPE2 := by
  simp +decide [decode_smc_float, mk_cmd, zero_cmd, smc_fraction_bits]
  norm_num

/-- C1 amended: for tags FP4C, FP5B, FP6A, FP79, FP88 and FPA6 the code
decodes the first two payload bytes as the 16-bit big-endian value
divided by `2^fraction_bits`; for FP1F, FPC4 and FPE2 it instead returns
`data[0] + (data[1] masked to the low fraction bits) / 2^k` with
`k = 7, 4, 2` respectively. -/
theorem C1_decode_formats_amended (c : smc_cmd) (h1 : c.data 1 < 256) :
    (c.keyInfo &&& 0xFFFFFFFF = SMC_TYPE_FP1F →
      (decode_smc_float (some c)).value =
        (c.data 0 : ℚ) + ((c.data 1 &&& 0x7F : Nat) : ℚ) / 2 ^ 7) ∧
    (c.keyInfo &&& 0xFFFFFFFF = SMC_TYPE_FP4C →
      (decode_smc_float (some c)).value =
        ((c.data 0 <<< 8 ||| c.data 1 : Nat) : ℚ) / 2 ^ smc_fraction_bits SMC_TYPE_FP4C) ∧
    (c.keyInfo &&& 0xFFFFFFFF = SMC_TYPE_FP5B →
      (decode_smc_float (some c)).value =
        ((c.data 0 <<< 8 ||| c.data 1 : Nat) : ℚ) / 2 ^ smc_fraction_bits SMC_TYPE_FP5B) ∧
    (c.keyInfo &&& 0xFFFFFFFF = SMC_TYPE_FP6A →
      (decode_smc_float (some c)).value =
        ((c.data 0 <<< 8 ||| c.data 1 : Nat) : ℚ) / 2 ^ smc_fraction_bits SMC_TYPE_FP6A) ∧
    (c.keyInfo &&& 0xFFFFFFFF = SMC_TYPE_FP79 →
      (decode_smc_float (some c)).value =
        ((c.data 0 <<< 8 ||| c.data 1 : Nat) : ℚ) / 2 ^ smc_fraction_bits SMC_TYPE_FP79) ∧
    (c.keyInfo &&& 0xFFFFFFFF = SMC_TYPE_FP88 →
      (decode_smc_float (some c)).value =
        ((c.data 0 <<< 8 ||| c.data 1 : Nat) : ℚ) / 2 ^ smc_fraction_bits SMC_TYPE_FP88) ∧
    (c.keyInfo &&& 0xFFFFFFFF = SMC_TYPE_FPA6 →
      (decode_smc_float (some c)).value =
        ((c.data 0 <<< 8 ||| c.data 1 : Nat) : ℚ) / 2 ^ smc_fraction_bits SMC_TYPE_FPA6) ∧
    (c.keyInfo &&& 0xFFFFFFFF = SMC_TYPE_FPC4 →
      (decode_smc_float (some c)).value =
        (c.data 0 : ℚ) + ((c.data 1 &&& 0xF : Nat) : ℚ) / 2 ^ 4) ∧
    (c.keyInfo &&& 0xFFFFFFFF = SMC_TYPE_FPE2 →
      (decode_smc_float (some c)).value =
        (c.data 0 : ℚ) + ((c.data 1 &&& 0x3 : Nat) : ℚ) / 2 ^ 2) := by
  refine ⟨?_, ?_, ?_, ?_, ?_, ?_, ?_, ?_, ?_⟩ <;> intro htag <;>
    simp only [decode_smc_float] <;> rw [htag] <;>
    simp +decide only [smc_fraction_bits]
  · norm_num [Nat.shiftLeft_eq]
  · norm_num
  · norm_num
  · norm_num
  · norm_num
  · rw [byte_or_eq_add _ _ h1]
    have h256 : ((1 <<< 8 : Nat) : ℚ) = 256 := by norm_num [Nat.shiftLeft_eq]
    rw [h256]
    push_cast
    norm_num
    try field_simp
    try ring
  · rw [Nat.shiftRight_eq_div_pow]
    have hand : (c.data 0 <<< 8 ||| c.data 1) &&& 63 =
        (c.data 0 <<< 8 ||| c.data 1) % 64 := by
      have h63 : (63 : Nat) = 2 ^ 6 - 1 := by norm_num
      rw [h63, Nat.and_pow_two_sub_one_eq_mod]
    rw [hand]
    have hdm : (64 : ℚ) * (((c.data 0 <<< 8 ||| c.data 1) / 64 : Nat) : ℚ) +
        (((c.data 0 <<< 8 ||| c.data 1) % 64 : Nat) : ℚ) =
        ((c.data 0 <<< 8 ||| c.data 1 : Nat) : ℚ) := by
      exact_mod_cast congrArg (fun n : Nat => (n : ℚ))
        (Nat.div_add_mod (c.data 0 <<< 8 ||| c.data 1) 64)
    norm_num
    field_simp
    linarith
  · norm_num
  · norm_num

/-- C1 witness: the amended formats theorem applied to the concrete FP4C
command of the repository's own test (`[0x44, 0x00]`, expected 4.25). -/
theorem C1_decode_formats_amended_witness :
    (mk_cmd SMC_TYPE_FP4C 68 0).data 1 < 256 ∧
    (decode_smc_float (some (mk_cmd SMC_TYPE_FP4C 68 0))).value =
      (((mk_cmd SMC_TYPE_FP4C 68 0).data 0 <<< 8 |||
         (mk_cmd SMC_TYPE_FP4C 68 0).data 1 : Nat) : ℚ) /
        2 ^ smc_fraction_bits SMC_TYPE_FP4C :=
  ⟨by decide,
   (C1_decode_formats_amended (mk_cmd SMC_TYPE_FP4C 68 0) (by decide)).2.1
     (by decide)⟩

/-! ## Claim C2 -/

/-- C2 counterexample: in `get_cpu_stats` (one of the two cited
implementations of the utilization sampler) a core whose four tick
deltas sum to zero does NOT yield the record
`{user = 0, system = 0, idle = 100, nice = 0}`: the loop body has no
else branch, so the caller's output entry (here `{37, 0, 0, 63}`) is
left untouched. -/
theorem C2_zero_total_counterexample :
    get_cpu_stats_core { user := 0, system := 0, idle := 0, nice := 0 }
        { user := 0, system := 0, idle := 0, nice := 0 }
        { user := 37, system := 0, idle := 0, nice := 63 } ≠
      { user := 0, system := 0, idle := 100, nice := 0 } := by
  decide

/-- C2 amended: when the four tick deltas of a core sum to zero,
`get_cpu_core_stats` returns exactly
`{user = 0, system = 0, idle = 100, nice = 0}` for that core, while
`get_cpu_stats` leaves the caller's output entry unchanged. -/
theorem C2_zero_total_fallback_amended (cur prev : core_ticks)
    (old : cpu_core_stats)
    (h : (core_deltas cur prev).user + (core_deltas cur prev).system +
         (core_deltas cur prev).idle + (core_deltas cur prev).nice = 0) :
    get_cpu_core_stats_core cur prev =
      { user := 0, system := 0, idle := 100, nice := 0 } ∧
    get_cpu_stats_core cur prev old = old := by
  simp only [get_cpu_core_stats_core, get_cpu_stats_core]
  rw [h]
  simp

/-- C2 witness: equal consecutive snapshots give zero deltas and the
all-idle fallback from `get_cpu_core_stats`. -/
theorem C2_zero_total_fallback_amended_witness :
    ((core_deltas { user := 5, system := 6, idle := 7, nice := 8 }
        { user := 5, system := 6, idle := 7, nice := 8 }).user +
     (core_deltas { user := 5, system := 6, idle := 7, nice := 8 }
        { user := 5, system := 6, idle := 7, nice := 8 }).system +
     (core_deltas { user := 5, system := 6, idle := 7, nice := 8 }
        { user := 5, system := 6, idle := 7, nice := 8 }).idle +
     (core_deltas { user := 5, system := 6, idle := 7, nice := 8 }
        { user := 5, system := 6, idle := 7, nice := 8 }).nice = 0) ∧
    get_cpu_core_stats_core { user := 5, system := 6, idle := 7, nice := 8 }
        { user := 5, system := 6, idle := 7, nice := 8 } =
      { user := 0, system := 0, idle := 100, nice := 0 } :=
  ⟨by decide,
   (C2_zero_total_fallback_amended
      { user := 5, system := 6, idle := 7, nice := 8 }
      { user := 5, system := 6, idle := 7, nice := 8 }
      { user := 1, system := 2, idle := 3, nice := 4 } (by decide)).1⟩

/-! ## Claim C3 -/

/-- C3: whenever the four tick deltas of a core have a positive total,
the four returned percentages (`delta_x / total * 100` each) sum to
exactly 100 as rational numbers, in both `get_cpu_core_stats` and
`get_cpu_stats`. -/
theorem C3_percentages_sum_to_100 (cur prev : core_ticks)
    (old : cpu_core_stats)
    (h : 0 < (core_deltas cur prev).user + (core_deltas cur prev).system +
         (core_deltas cur prev).idle + (core_deltas cur prev).nice) :
    (get_cpu_core_stats_core cur prev).user +
      (get_cpu_core_stats_core cur prev).system +
      (get_cpu_core_stats_core cur prev).idle +
      (get_cpu_core_stats_core cur prev).nice = 100 ∧
    (get_cpu_stats_core cur prev old).user +
      (get_cpu_stats_core cur prev old).system +
      (get_cpu_stats_core cur prev old).idle +
      (get_cpu_stats_core cur prev old).nice = 100 := by
  simp only [get_cpu_core_stats_core, get_cpu_stats_core]
  rw [if_pos h, if_pos h]
  have ht : ((core_deltas cur prev).user : ℚ) +
      ((core_deltas cur prev).system : ℚ) +
      ((core_deltas cur prev).idle : ℚ) +
      ((core_deltas cur prev).nice : ℚ) ≠ 0 := by
    exact_mod_cast Nat.pos_iff_ne_zero.mp h
  constructor <;>
  · push_cast
    field_simp
    ring

/-- C3 witness: the spec's own scenario, deltas `{10, 5, 85, 0}`. -/
theorem C3_percentages_sum_to_100_witness :
    (0 < (core_deltas { user := 10, system := 5, idle := 85, nice := 0 }
        { user := 0, system := 0, idle := 0, nice := 0 }).user +
      (core_deltas { user := 10, system := 5, idle := 85, nice := 0 }
        { user := 0, system := 0, idle := 0, nice := 0 }).system +
      (core_deltas { user := 10, system := 5, idle := 85, nice := 0 }
        { user := 0, system := 0, idle := 0, nice := 0 }).idle +
      (core_deltas { user := 10, system := 5, idle := 85, nice := 0 }
        { user := 0, system := 0, idle := 0, nice := 0 }).nice) ∧
    (get_cpu_core_stats_core { user := 10, system := 5, idle := 85, nice := 0 }
        { user := 0, system := 0, idle := 0, nice := 0 }).user +
      (get_cpu_core_stats_core { user := 10, system := 5, idle := 85, nice := 0 }
        { user := 0, system := 0, idle := 0, nice := 0 }).system +
      (get_cpu_core_stats_core { user := 10, system := 5, idle := 85, nice := 0 }
        { user := 0, system := 0, idle := 0, nice := 0 }).idle +
      (get_cpu_core_stats_core { user := 10, system := 5, idle := 85, nice := 0 }
        { user := 0, system := 0, idle := 0, nice := 0 }).nice = 100 :=
  ⟨by decide,
   (C3_percentages_sum_to_100
      { user := 10, system := 5, idle := 85, nice := 0 }
      { user := 0, system := 0, idle := 0, nice := 0 }
      { user := 1, system := 2, idle := 3, nice := 4 } (by decide)).1⟩

/-! ## Claim C4 -/

/-- C4: on the first (UNPRIMED) call `get_cpu_core_stats` stores the
captured snapshot as the previous one, sleeps the fixed 500 ms settle
interval, and re-invokes itself exactly once: recursion depth 2 (fuel 2)
always yields a result computed from the first two snapshots with
exactly 500 ms slept, while depth 1 (fuel 1) is insufficient from the
UNPRIMED state; a subsequent PRIMED call returns directly (fuel 1,
0 ms slept). -/
theorem C4_priming_single_retry (fetch : Nat → Option (List core_ticks))
    (s0 s1 : List core_ticks)
    (h0 : fetch 0 = some s0) (h1 : fetch 1 = some s1) :
    get_cpu_core_stats_run fetch 2 0 none =
      some (core_stats_outcome.ok 500
        (List.zipWith get_cpu_core_stats_core s1 s0) s1) ∧
    get_cpu_core_stats_run fetch 1 0 none = none ∧
    ∀ (idx : Nat) (p s : List core_ticks), fetch idx = some s →
      get_cpu_core_stats_run fetch 1 idx (some p) =
        some (core_stats_outcome.ok 0
          (List.zipWith get_cpu_core_stats_core s p) s) := by
  refine ⟨?_, ?_, ?_⟩
  · show get_cpu_core_stats_run fetch (1 + 1) 0 none = _
    simp [get_cpu_core_stats_run, h0, h1]
  · show get_cpu_core_stats_run fetch (0 + 1) 0 none = _
    simp [get_cpu_core_stats_run, h0]
  · intro idx p s hs
    show get_cpu_core_stats_run fetch (0 + 1) idx (some p) = _
    simp [get_cpu_core_stats_run, hs]

/-- C4 witness: the two-snapshot oracle primes on the first snapshot and
computes the spec's scenario deltas on the retry. -/
theorem C4_priming_single_retry_witness :
    two_snapshot_fetch 0 = some [{ user := 0, system := 0, idle := 0, nice := 0 }] ∧
    two_snapshot_fetch 1 = some [{ user := 10, system := 5, idle := 85, nice := 0 }] ∧
    get_cpu_core_stats_run two_snapshot_fetch 2 0 none =
      some (core_stats_outcome.ok 500
        (List.zipWith get_cpu_core_stats_core
          [{ user := 10, system := 5, idle := 85, nice := 0 }]
          [{ user := 0, system := 0, idle := 0, nice := 0 }])
        [{ user := 10, system := 5, idle := 85, nice := 0 }]) :=
  ⟨rfl, rfl,
   (C4_priming_single_retry two_snapshot_fetch
      [{ user := 0, system := 0, idle := 0, nice := 0 }]
      [{ user := 10, system := 5, idle := 85, nice := 0 }] rfl rfl).1⟩

/-! ## Claim C5 -/

/-- C5: for every key, a read attempted while the connection is CLOSED
(handle 0) fails fast: `get_smc_float` returns failure without entering
the lock's critical section and without invoking any adapter exchange. -/
theorem C5_closed_read_fails_fast (g : smc_connection)
    (exchange : smc_exchange_oracle) (key : Option (List Nat)) (vp : Bool)
    (h : g.connection = 0) :
    get_smc_float g exchange key vp =
      { success := false, value := none,
        trace := { lock_acquired := false, exchange_count := 0 } } :=
  get_smc_float_closed g exchange key vp h

/-- C5 witness: the fail-fast behaviour at the concrete CLOSED
connection and CPU power key. -/
theorem C5_closed_read_fails_fast_witness :
    closed_conn.connection = 0 ∧
    get_smc_float closed_conn echo_exchange (some pc0c_key) true =
      { success := false, value := none,
        trace := { lock_acquired := false, exchange_count := 0 } } :=
  ⟨rfl, C5_closed_read_fails_fast closed_conn echo_exchange (some pc0c_key)
     true rfl⟩

/-! ## Claim C6 -/

/-- C6: for every type tag outside the nine recognized formats,
`decode_smc_float` returns the sentinel `0.0` and emits a warning-level
diagnostic, and the enclosing `get_smc_float` call (on an open
connection, with the adapter exchange succeeding) still returns success
with the sentinel value rather than an error. -/
theorem C6_unknown_tag_soft_failure (g : smc_connection)
    (exchange : smc_exchange_oracle) (key : Option (List Nat))
    (cmdF : smc_cmd) (n : Nat)
    (hconn : g.connection ≠ 0) (hkey : key ≠ none)
    (hread : read_smc_key exchange key zero_cmd = (true, cmdF, n))
    (htag : (cmdF.keyInfo &&& 0xFFFFFFFF) ∉ smc_recognized_tags) :
    decode_smc_float (some cmdF) = { value := 0, logged := some LOG_WARNING } ∧
    get_smc_float g exchange key true =
      { success := true, value := some 0,
        trace := { lock_acquired := true, exchange_count := n } } := by
  have hdec : decode_smc_float (some cmdF) =
      { value := 0, logged := some LOG_WARNING } := by
    simp only [smc_recognized_tags, List.mem_cons, List.not_mem_nil, or_false,
      not_or] at htag
    obtain ⟨n1, n2, n3, n4, n5, n6, n7, n8, n9⟩ := htag
    simp only [decode_smc_float, if_neg n1, if_neg n2, if_neg n3, if_neg n4,
      if_neg n5, if_neg n6, if_neg n7, if_neg n8, if_neg n9]
  refine ⟨hdec, ?_⟩
  have hcond : ¬(key = none ∨ true = false ∨ g.connection = 0) := by
    simp [hkey, hconn]
  simp only [get_smc_float, if_neg hcond, hread]
  simp [hdec]

/-- C6 witness: an adapter answering with the unrecognized tag
0x12345678 makes the concrete read succeed with value 0. -/
theorem C6_unknown_tag_soft_failure_witness :
    open_conn.connection ≠ 0 ∧
    decode_smc_float (some unknown_tag_final_cmd) =
      { value := 0, logged := some LOG_WARNING } ∧
    get_smc_float open_conn unknown_tag_exchange (some pc0c_key) true =
      { success := true, value := some 0,
        trace := { lock_acquired := true, exchange_count := 2 } } := by
  have h := C6_unknown_tag_soft_failure open_conn unknown_tag_exchange
    (some pc0c_key) unknown_tag_final_cmd 2 (by decide) (by simp) rfl (by decide)
  exact ⟨by decide, h.1, h.2⟩

/-! ## Claim C7 -/

/-- C7: for every 4-character ASCII key, the packing of `read_smc_key`
is big-endian and lossless: re-extracting the four bytes big-endian from
`encode_key` reproduces the original bytes. -/
theorem C7_encode_key_roundtrip (b0 b1 b2 b3 : Nat) (h0 : b0 < 128)
    (h1 : b1 < 128) (h2 : b2 < 128) (h3 : b3 < 128) :
    (encode_key b0 b1 b2 b3 >>> 24) &&& 0xFF = b0 ∧
    (encode_key b0 b1 b2 b3 >>> 16) &&& 0xFF = b1 ∧
    (encode_key b0 b1 b2 b3 >>> 8) &&& 0xFF = b2 ∧
    encode_key b0 b1 b2 b3 &&& 0xFF = b3 := by
  have he := encode_key_eq b0 b1 b2 b3 (by omega) (by omega) (by omega) (by omega)
  refine ⟨?_, ?_, ?_, ?_⟩ <;>
    rw [he] <;>
    first
      | (rw [Nat.shiftRight_eq_div_pow, and_FF_eq_mod]; omega)
      | (rw [and_FF_eq_mod]; omega)

/-- C7 witness: the round trip at the CPU power key bytes
`[80, 67, 48, 67]`. -/
theorem C7_encode_key_roundtrip_witness :
    80 < 128 ∧ 67 < 128 ∧ 48 < 128 ∧
    ((encode_key 80 67 48 67 >>> 24) &&& 0xFF = 80 ∧
     (encode_key 80 67 48 67 >>> 16) &&& 0xFF = 67 ∧
     (encode_key 80 67 48 67 >>> 8) &&& 0xFF = 48 ∧
     encode_key 80 67 48 67 &&& 0xFF = 67) :=
  ⟨by decide, by decide, by decide,
   C7_encode_key_roundtrip 80 67 48 67 (by decide) (by decide) (by decide)
     (by decide)⟩

/-! ## Claim C8 -/

/-- C8 counterexample: for the 3-character key string (bytes
`[65, 66, 67]` plus NUL terminator), `read_smc_key` does not fail with
an invalid-argument error: it packs the bytes including the terminator
into `encode_key 65 66 67 0` and the read proceeds and succeeds. -/
theorem C8_short_key_counterexample :
    (read_smc_key echo_exchange (some [65, 66, 67, 0]) zero_cmd).1 = true ∧
    (read_smc_key echo_exchange (some [65, 66, 67, 0]) zero_cmd).2.1.key =
      encode_key 65 66 67 0 ∧
    (read_smc_key echo_exchange (some [65, 66, 67, 0]) zero_cmd).2.2 = 2 := by
  refine ⟨rfl, rfl, rfl⟩

/-- C8 amended: `read_smc_key` rejects only a NULL key string, failing
before any adapter exchange; every non-NULL key string — including ones
shorter than 4 characters — is packed and at least one adapter exchange
is attempted (no invalid-argument failure). -/
theorem C8_null_only_rejected_amended (exchange : smc_exchange_oracle)
    (cmd : smc_cmd) :
    read_smc_key exchange none cmd = (false, cmd, 0) ∧
    ∀ ks : List Nat, 1 ≤ (read_smc_key exchange (some ks) cmd).2.2 := by
  refine ⟨rfl, ?_⟩
  intro ks
  simp only [read_smc_key]
  split
  · simp
  · split <;> simp

/-! ## Claim C9 -/

/-- C9: the result of `decode_smc_float` depends only on the type tag
(`keyInfo`) and the first two data bytes: two commands agreeing on
those three fields decode identically regardless of the remaining
thirty bytes. -/
theorem C9_decode_depends_on_first_two_bytes (c1 c2 : smc_cmd)
    (hk : c1.keyInfo = c2.keyInfo)
    (h0 : c1.data 0 = c2.data 0) (h1 : c1.data 1 = c2.data 1) :
    decode_smc_float (some c1) = decode_smc_float (some c2) := by
  simp only [decode_smc_float]
  rw [hk, h0, h1]

/-- C9 witness: a command with nonzero trailing bytes decodes exactly as
the clean command with the same tag and first two bytes. -/
theorem C9_decode_depends_on_first_two_bytes_witness :
    noisy_cmd.keyInfo = (mk_cmd SMC_TYPE_FP88 1 128).keyInfo ∧
    decode_smc_float (some noisy_cmd) =
      decode_smc_float (some (mk_cmd SMC_TYPE_FP88 1 128)) :=
  ⟨by decide,
   C9_decode_depends_on_first_two_bytes noisy_cmd (mk_cmd SMC_TYPE_FP88 1 128)
     (by decide) (by decide) (by decide)⟩

/-! ## Claim C10 -/

/-- C10: when `init_smc` fails (service not found, open failure, or key
setup failure), it resets the global connection to the CLOSED state
(handle 0, limited mode off), so every subsequent `get_smc_float` on it
fails fast without locking or adapter traffic. -/
theorem C10_init_failure_resets_connection (env : smc_env)
    (g : smc_connection) (h : (init_smc env g).1 = false) :
    (init_smc env g).2.connection = 0 ∧
    (init_smc env g).2.limited_mode = false ∧
    ∀ (exchange : smc_exchange_oracle) (key : Option (List Nat)) (vp : Bool),
      get_smc_float (init_smc env g).2 exchange key vp =
        { success := false, value := none,
          trace := { lock_acquired := false, exchange_count := 0 } } := by
  simp only [init_smc] at h ⊢
  have hne : (init_smc_with_options env (some g)
      (some { allow_limited_mode := false, skip_power_keys := false,
              timeout_ms := 1000 })).1 ≠ SMC_SUCCESS := by
    intro heq
    rw [heq] at h
    simp at h
  rw [if_pos hne]
  refine ⟨rfl, rfl, ?_⟩
  intro exchange key vp
  exact get_smc_float_closed _ exchange key vp rfl

/-- C10 witness: a failed initialisation in the no-service environment
leaves the connection CLOSED and reads fail fast. -/
theorem C10_init_failure_resets_connection_witness :
    (init_smc no_service_env closed_conn).1 = false ∧
    (init_smc no_service_env closed_conn).2.connection = 0 ∧
    (init_smc no_service_env closed_conn).2.limited_mode = false ∧
    get_smc_float (init_smc no_service_env closed_conn).2 echo_exchange
        (some pc0c_key) true =
      { success := false, value := none,
        trace := { lock_acquired := false, exchange_count := 0 } } := by
  have h := C10_init_failure_resets_connection no_service_env closed_conn
    (by decide)
  exact ⟨by decide, h.1, h.2.1, h.2.2 echo_exchange (some pc0c_key) true⟩
